import Mathlib

/-!
Verification of the bitkub-python client's request signing and dispatch
protocol (`bitkub/client.py`, `bitkub/exception.py`), via a shallow
embedding.  Python dictionaries are modelled as association lists (Python
dicts preserve insertion order and have unique keys), machine integers as
`Int`/`Nat`, the HTTP transport (`requests.Session.request`) as an
explicit function argument, and `hmac.new(..).hexdigest()` as an abstract
function argument (its cryptographic content is irrelevant to the claims:
only which string is signed, and where the digest is placed, matter).
-/

namespace Bitkub

/-- A JSON value, as produced by Python's `json` module / `response.json()`.
Numeric values are modelled as integers (floats never decide any claim). -/
inductive JsonVal where
  | null
  | bool (b : Bool)
  | int (n : Int)
  | str (s : String)
  | arr (xs : List JsonVal)
  | obj (fields : List (String × JsonVal))

/-- Lowercase hexadecimal digit, as used by Python's `\uXXXX` JSON escapes. -/
def hexDigitLower (n : Nat) : Char :=
  if n < 10 then Char.ofNat (48 + n) else Char.ofNat (87 + n)

/-- Uppercase hexadecimal digit, as used by `urllib.parse.quote` percent-escapes. -/
def hexDigitUpper (n : Nat) : Char :=
  if n < 10 then Char.ofNat (48 + n) else Char.ofNat (55 + n)

/-- Four lowercase hex digits (for `\uXXXX`). -/
def hex4 (n : Nat) : String :=
  String.mk [hexDigitLower (n / 4096 % 16), hexDigitLower (n / 256 % 16),
             hexDigitLower (n / 16 % 16), hexDigitLower (n % 16)]

/-- One character of Python's `json.dumps` ASCII string escaping
(`ensure_ascii=True`, the default): `"` and `\` and the five short escapes,
`\uXXXX` for other characters outside the printable ASCII range 0x20..0x7e,
surrogate pairs for astral code points. -/
def jsonEscapeChar (c : Char) : String :=
  if c = '"' then "\\\""
  else if c = '\\' then "\\\\"
  else if c = Char.ofNat 8 then "\\b"
  else if c = Char.ofNat 12 then "\\f"
  else if c = '\n' then "\\n"
  else if c = '\r' then "\\r"
  else if c = '\t' then "\\t"
  else if 32 ≤ c.toNat ∧ c.toNat ≤ 126 then String.singleton c
  else if c.toNat < 65536 then "\\u" ++ hex4 c.toNat
  else
    "\\u" ++ hex4 (55296 + (c.toNat - 65536) / 1024) ++
    "\\u" ++ hex4 (56320 + (c.toNat - 65536) % 1024)

/-- Python's JSON string literal: `"` + escaped characters + `"`. -/
def jsonQuote (s : String) : String :=
  "\"" ++ String.join (s.toList.map jsonEscapeChar) ++ "\""

mutual

/-- `json.dumps(v)` with Python's DEFAULT separators `(', ', ': ')`:
a space follows every item comma and every key colon. -/
def jsonDumps : JsonVal → String
  | .null => "null"
  | .bool true => "true"
  | .bool false => "false"
  | .int n => toString n
  | .str s => jsonQuote s
  | .arr xs => "[" ++ jsonDumpsArr xs ++ "]"
  | .obj fs => "\x7b" ++ jsonDumpsObj fs ++ "\x7d"

/-- Array items joined by `", "`. -/
def jsonDumpsArr : List JsonVal → String
  | [] => ""
  | [v] => jsonDumps v
  | v :: vs => jsonDumps v ++ ", " ++ jsonDumpsArr vs

/-- Object entries `"key": value` joined by `", "`. -/
def jsonDumpsObj : List (String × JsonVal) → String
  | [] => ""
  | [(k, v)] => jsonQuote k ++ ": " ++ jsonDumps v
  | (k, v) :: fs => jsonQuote k ++ ": " ++ jsonDumps v ++ ", " ++ jsonDumpsObj fs

end

mutual

/-- Compact JSON serialization, following the spec's words: the spec calls the
request body the "compact JSON serialization" / "compact_json_body", i.e.
`json.dumps` with separators `(',', ':')` and no whitespace.  Used only to
compare the spec's wording against the source's `json.dumps(body)` (which
uses the default separators, see `jsonDumps`). -/
def compactJsonDumps : JsonVal → String
  | .null => "null"
  | .bool true => "true"
  | .bool false => "false"
  | .int n => toString n
  | .str s => jsonQuote s
  | .arr xs => "[" ++ compactJsonDumpsArr xs ++ "]"
  | .obj fs => "\x7b" ++ compactJsonDumpsObj fs ++ "\x7d"

/-- Array items joined by `","` (compact). -/
def compactJsonDumpsArr : List JsonVal → String
  | [] => ""
  | [v] => compactJsonDumps v
  | v :: vs => compactJsonDumps v ++ "," ++ compactJsonDumpsArr vs

/-- Object entries `"key":value` joined by `","` (compact). -/
def compactJsonDumpsObj : List (String × JsonVal) → String
  | [] => ""
  | [(k, v)] => jsonQuote k ++ ":" ++ compactJsonDumps v
  | (k, v) :: fs => jsonQuote k ++ ":" ++ compactJsonDumps v ++ "," ++ compactJsonDumpsObj fs

end

mutual

/-- Python `repr` of a JSON-shaped value (used by `str()` on containers).
String `repr` is modelled with single quotes and no escaping — faithful for
the strings this API produces; no claim depends on `repr` escaping. -/
def pyRepr : JsonVal → String
  | .null => "None"
  | .bool true => "True"
  | .bool false => "False"
  | .int n => toString n
  | .str s => "'" ++ s ++ "'"
  | .arr xs => "[" ++ pyReprArr xs ++ "]"
  | .obj fs => "\x7b" ++ pyReprObj fs ++ "\x7d"

/-- `repr` of list items joined by `", "`. -/
def pyReprArr : List JsonVal → String
  | [] => ""
  | [v] => pyRepr v
  | v :: vs => pyRepr v ++ ", " ++ pyReprArr vs

/-- `repr` of dict entries `'key': value` joined by `", "`. -/
def pyReprObj : List (String × JsonVal) → String
  | [] => ""
  | [(k, v)] => "'" ++ k ++ "': " ++ pyRepr v
  | (k, v) :: fs => "'" ++ k ++ "': " ++ pyRepr v ++ ", " ++ pyReprObj fs

end

/-- Python `str()` of a JSON-shaped value, as used by the f-string
`f"API Error \x7berror_code\x7d"`: a string is itself, everything else
is its `repr`. -/
def pyStr : JsonVal → String
  | .str s => s
  | v => pyRepr v

/-- Python truthiness (`bool(v)`) of a JSON-shaped value. -/
def pyTruthy : JsonVal → Bool
  | .null => false
  | .bool b => b
  | .int n => n != 0
  | .str s => s != ""
  | .arr xs => !xs.isEmpty
  | .obj fs => !fs.isEmpty

/-- Python `v != 0` for a JSON-shaped value (`False == 0` and `True == 1`
in Python; values of other non-numeric types are never equal to `0`). -/
def pyNeZero : JsonVal → Bool
  | .int n => n != 0
  | .bool b => b
  | _ => true

/-- UTF-8 encoding of a Unicode code point, as a list of byte values. -/
def utf8Bytes (n : Nat) : List Nat :=
  if n < 128 then [n]
  else if n < 2048 then [192 + n / 64, 128 + n % 64]
  else if n < 65536 then [224 + n / 4096, 128 + n / 64 % 64, 128 + n % 64]
  else [240 + n / 262144, 128 + n / 4096 % 64, 128 + n / 64 % 64, 128 + n % 64]

/-- The characters `urllib.parse.quote_plus` never escapes:
ASCII alphanumerics and `_.-~`. -/
def isUrlSafe (c : Char) : Bool :=
  c.isAlpha || c.isDigit || c = '_' || c = '.' || c = '-' || c = '~'

/-- Percent-escape of one byte: `%XX` with uppercase hex. -/
def percentByte (b : Nat) : String :=
  String.mk ['%', hexDigitUpper (b / 16 % 16), hexDigitUpper (b % 16)]

/-- `urllib.parse.quote_plus` on one character: space becomes `+`, safe
characters pass through, everything else is percent-escaped per UTF-8 byte. -/
def quotePlusChar (c : Char) : String :=
  if c = ' ' then "+"
  else if isUrlSafe c then String.singleton c
  else String.join ((utf8Bytes c.toNat).map percentByte)

/-- `urllib.parse.quote_plus` on a string. -/
def quotePlus (s : String) : String :=
  String.join (s.toList.map quotePlusChar)

/-- `urllib.parse.urlencode(query_params)`: `k=v` pairs joined by `&`,
keys and values `quote_plus`-escaped.  Query parameters are modelled as an
ordered association list of already-stringified scalars (Python's `urlencode`
applies `str()` to scalar values; dict iteration order is insertion order). -/
def urlencode (q : List (String × String)) : String :=
  String.intercalate "&" (q.map fun kv => quotePlus kv.1 ++ "=" ++ quotePlus kv.2)

/-- Python dict lookup (`d[k]` / `k in d` / `d.get(k)`) on the association-list
model.  Python dict keys are unique, so first-match lookup is exact. -/
def dictGet (k : String) : List (String × JsonVal) → Option JsonVal
  | [] => none
  | (k2, v) :: rest => if k = k2 then some v else dictGet k rest

/-- Header lookup by name on the association-list model of a header dict. -/
def lookupHeader (k : String) : List (String × String) → Option String
  | [] => none
  | (k2, v) :: rest => if k = k2 then some v else lookupHeader k rest

/-- `"".join(parts)`. -/
def strJoin : List String → String
  | [] => ""
  | [s] => s
  | s :: ss => s ++ strJoin ss

/-- The exceptions of `bitkub/exception.py`.  `bitkub` is `BitkubException`
(one class, carrying only a message, used for every transport-level failure);
`api` is `BitkubAPIException` (a distinct class carrying the message and the
in-band error code — both are whatever values the response dict held, so they
are modelled as `JsonVal`). -/
inductive BkError where
  | bitkub (message : String)
  | api (message : JsonVal) (code : JsonVal)

/-- True exactly for the `BitkubException` constructor. -/
def BkError.isBitkub : BkError → Bool
  | .bitkub _ => true
  | .api _ _ => false

/-- True exactly for the `BitkubAPIException` constructor. -/
def BkError.isApi : BkError → Bool
  | .bitkub _ => false
  | .api _ _ => true

/-- The credential/configuration state of `BaseClient.__init__`:
`api_key` and `api_secret` are `Optional[str]` defaulting to `""`. -/
structure ClientConfig where
  api_key : Option String
  api_secret : Option String
  base_url : String

/-- One HTTP request as handed to `requests.Session.request`: the method, the
full URL, the header dict, the raw `data=` body string, and the `params=`
query dict (used only by public calls; private calls fold the query into the
path and pass no `params`). -/
structure HttpRequest where
  method : String
  url : String
  headers : List (String × String)
  body : String
  params : List (String × String)

/-- One HTTP response as seen by the client: `status_code`, the raw `text`,
and the result of `response.json()` — `none` models a body that is not valid
JSON (where `.json()` raises `ValueError`). -/
structure HttpResponse where
  status_code : Nat
  text : String
  jsonBody : Option JsonVal

/-- The observable outcome of one client call: the returned value or raised
exception, the strings passed to `BaseClient._sign` (the HMAC signer), and
the requests actually handed to the transport (the transport spy's record). -/
structure CallTrace where
  result : Except BkError JsonVal
  signedPayloads : List String
  requests : List HttpRequest

/-- `BaseClient._sign`: raises `BitkubException("API secret not set")` when
the secret is unset (`None`) or empty (Python `not self._api_secret`),
otherwise returns the HMAC-SHA256 hex digest of the payload under the secret.
`hm` abstracts `hmac.new(secret.encode(), payload.encode(), sha256).hexdigest()`. -/
def sign (hm : String → String → String) (api_secret : Option String)
    (payload_string : String) : Except BkError String :=
  if api_secret.getD "" = "" then .error (.bitkub "API secret not set")
  else .ok (hm (api_secret.getD "") payload_string)

/-- `BaseClient._private_headers(ts, sig)`. -/
def private_headers (cfg : ClientConfig) (ts sig : String) : List (String × String) :=
  [("Accept", "application/json"),
   ("Content-Type", "application/json"),
   ("X-BTK-TIMESTAMP", ts),
   ("X-BTK-SIGN", sig),
   ("X-BTK-APIKEY", cfg.api_key.getD "")]

/-- `BaseClient._public_headers()`. -/
def public_headers : List (String × String) :=
  [("Accept", "application/json"),
   ("Content-Type", "application/json")]

/-- `Client._guard_errors`: raise `BitkubException(f"\x7bstatus\x7d : \x7btext\x7d")`
when the status code is outside `[200, 300)`. -/
def guard_errors (r : HttpResponse) : Except BkError Unit :=
  if r.status_code < 200 ∨ r.status_code ≥ 300 then
    .error (.bitkub (toString r.status_code ++ " : " ++ r.text))
  else .ok ()

/-- The in-band error check of `Client._handle_response`: if the parsed JSON
is a dict with an `error` key whose value is truthy and `!= 0`, raise
`BitkubAPIException(data.get("message", f"API Error \x7bcode\x7d"), code)`;
otherwise return the parsed value unchanged. -/
def checkApiError (data : JsonVal) : Except BkError JsonVal :=
  match data with
  | .obj fs =>
    match dictGet "error" fs with
    | some ec =>
      if pyTruthy ec && pyNeZero ec then
        .error (.api ((dictGet "message" fs).getD (.str ("API Error " ++ pyStr ec))) ec)
      else .ok data
    | none => .ok data
  | _ => .ok data

/-- `Client._handle_response`: guard the status range, then parse JSON
(raising `BitkubException("Invalid JSON response")` when `.json()` fails),
then run the in-band error check. -/
def handle_response (r : HttpResponse) : Except BkError JsonVal :=
  match guard_errors r with
  | .error e => .error e
  | .ok _ =>
    match r.jsonBody with
    | none => .error (.bitkub "Invalid JSON response")
    | some data => checkApiError data

/-- The query-folding step of `Client._send_private_request`:
`if query_params: path = path + "?" + urlencode(query_params)`. -/
def pathWithQuery (path : String) (query_params : List (String × String)) : String :=
  if query_params.isEmpty then path else path ++ "?" ++ urlencode query_params

/-- `Client._send_private_request(method, path, body, query_params)`, with the
fresh timestamp string `ts` (`str(round(time.time() * 1000))`) passed in
explicitly and the transport passed as a function.  The trace records the
string handed to `_sign` and the requests handed to `session.request`. -/
def send_private_request (hm : String → String → String)
    (transport : HttpRequest → HttpResponse) (cfg : ClientConfig)
    (ts method path : String) (body : List (String × JsonVal))
    (query_params : List (String × String)) : CallTrace :=
  let str_body := jsonDumps (.obj body)
  let path2 := pathWithQuery path query_params
  let payload := strJoin [ts, method, path2, str_body]
  match sign hm cfg.api_secret payload with
  | .error e => { result := .error e, signedPayloads := [payload], requests := [] }
  | .ok sig =>
    let req : HttpRequest :=
      { method := method, url := cfg.base_url ++ path2,
        headers := private_headers cfg ts sig, body := str_body, params := [] }
    { result := handle_response (transport req), signedPayloads := [payload],
      requests := [req] }

/-- `Client._send_public_request(method, path, body, query_params)`: no
signing, public headers, query passed through as `params=`. -/
def send_public_request (transport : HttpRequest → HttpResponse)
    (cfg : ClientConfig) (method path : String) (body : List (String × JsonVal))
    (query_params : List (String × String)) : CallTrace :=
  let str_body := jsonDumps (.obj body)
  let req : HttpRequest :=
    { method := method, url := cfg.base_url ++ path,
      headers := public_headers, body := str_body, params := query_params }
  { result := handle_response (transport req), signedPayloads := [],
    requests := [req] }

/-- A dummy digest function for instantiating witnesses. -/
def hmDummy : String → String → String := fun _ _ => "0"

/-- A transport stub answering 200 with body `\x7b\x7d` for witnesses. -/
def trOk : HttpRequest → HttpResponse :=
  fun _ => { status_code := 200, text := "\x7b\x7d", jsonBody := some (.obj []) }

/-- The request that `_send_private_request` hands to the transport when the
secret is configured (used to phrase theorems about the transmitted request). -/
def privateRequestOf (hm : String → String → String) (cfg : ClientConfig)
    (ts m p : String) (b : List (String × JsonVal))
    (q : List (String × String)) : HttpRequest :=
  { method := m, url := cfg.base_url ++ pathWithQuery p q,
    headers := private_headers cfg ts (hm (cfg.api_secret.getD "")
      (strJoin [ts, m, pathWithQuery p q, jsonDumps (.obj b)])),
    body := jsonDumps (.obj b), params := [] }

theorem guard_errors_ok (r : HttpResponse) (h1 : 200 ≤ r.status_code)
    (h2 : r.status_code < 300) : guard_errors r = .ok () := by
  unfold guard_errors
  rw [if_neg]
  omega

theorem pyTruthy_imp_pyNeZero (v : JsonVal) (h : pyTruthy v = true) :
    pyNeZero v = true := by
  cases v <;> simp_all [pyTruthy, pyNeZero]

theorem send_private_request_ok (hm : String → String → String)
    (transport : HttpRequest → HttpResponse) (cfg : ClientConfig)
    (ts m p : String) (b : List (String × JsonVal)) (q : List (String × String))
    (hsec : ¬ cfg.api_secret.getD "" = "") :
    send_private_request hm transport cfg ts m p b q =
      { result := handle_response (transport (privateRequestOf hm cfg ts m p b q)),
        signedPayloads := [strJoin [ts, m, pathWithQuery p q, jsonDumps (.obj b)]],
        requests := [privateRequestOf hm cfg ts m p b q] } := by
  unfold send_private_request sign privateRequestOf
  simp only [if_neg hsec]

theorem send_private_request_noSecret (hm : String → String → String)
    (transport : HttpRequest → HttpResponse) (cfg : ClientConfig)
    (ts m p : String) (b : List (String × JsonVal)) (q : List (String × String))
    (hsec : cfg.api_secret.getD "" = "") :
    send_private_request hm transport cfg ts m p b q =
      { result := .error (.bitkub "API secret not set"),
        signedPayloads := [strJoin [ts, m, pathWithQuery p q, jsonDumps (.obj b)]],
        requests := [] } := by
  unfold send_private_request sign
  simp only [if_pos hsec]

theorem strJoin_four (a b c d : String) :
    strJoin [a, b, c, d] = a ++ (b ++ (c ++ d)) := rfl

/-- C1: For every private request with timestamp string `ts`, HTTP method `m`,
path `p`, query-parameter mapping `q`, and body mapping `b`, the string passed
to the HMAC signer (`_sign`) is exactly the concatenation, with no separator,
of: `ts`, then `m`, then `p` with `?` plus the URL-encoded query string
appended when `q` is non-empty (`p` unchanged when `q` is empty), then the
JSON serialization of `b`. -/
theorem C1_signer_input (hm : String → String → String)
    (transport : HttpRequest → HttpResponse) (cfg : ClientConfig)
    (ts m p : String) (b : List (String × JsonVal)) (q : List (String × String)) :
    (send_private_request hm transport cfg ts m p b q).signedPayloads =
      [ts ++ (m ++ ((if q.isEmpty then p else p ++ "?" ++ urlencode q) ++
        jsonDumps (.obj b)))] := by
  by_cases hsec : cfg.api_secret.getD "" = ""
  · rw [send_private_request_noSecret hm transport cfg ts m p b q hsec,
        strJoin_four, pathWithQuery]
  · rw [send_private_request_ok hm transport cfg ts m p b q hsec,
        strJoin_four, pathWithQuery]

/-- C2: For every private request issued while the configured API secret is
unset (`None`) or the empty string, the operation fails with
`BitkubException("API secret not set")` and no HTTP request is ever handed to
the transport (the trace records zero transport calls). -/
theorem C2_missing_secret (hm : String → String → String)
    (transport : HttpRequest → HttpResponse) (cfg : ClientConfig)
    (ts m p : String) (b : List (String × JsonVal)) (q : List (String × String))
    (h : cfg.api_secret = none ∨ cfg.api_secret = some "") :
    (send_private_request hm transport cfg ts m p b q).result =
      .error (.bitkub "API secret not set") ∧
    (send_private_request hm transport cfg ts m p b q).requests = [] := by
  have hsec : cfg.api_secret.getD "" = "" := by
    rcases h with h | h <;> simp [h]
  rw [send_private_request_noSecret hm transport cfg ts m p b q hsec]
  exact ⟨rfl, rfl⟩

/-- Witness for C2 at a concrete client whose secret is the empty string. -/
theorem C2_missing_secret_witness :
    (send_private_request hmDummy trOk
      { api_key := some "key", api_secret := some "", base_url := "https://api.bitkub.com" }
      "1700000000000" "POST" "/api/v3/market/wallet" [] []).result =
      .error (.bitkub "API secret not set") ∧
    (send_private_request hmDummy trOk
      { api_key := some "key", api_secret := some "", base_url := "https://api.bitkub.com" }
      "1700000000000" "POST" "/api/v3/market/wallet" [] []).requests = [] :=
  C2_missing_secret hmDummy trOk _ "1700000000000" "POST" "/api/v3/market/wallet"
    [] [] (Or.inr rfl)

/-- C3 counterexample: for the body mapping `\x7b"a": 1\x7d`, the transmitted
request body is `jsonDumps`'s `\x7b"a": 1\x7d` — with a space after the colon,
since `json.dumps` is called with its default separators — which is not the
compact JSON serialization `\x7b"a":1\x7d` the claim asserts. -/
theorem C3_body_not_compact_counterexample :
    (send_public_request trOk
      { api_key := some "", api_secret := some "", base_url := "https://api.bitkub.com" }
      "POST" "/x" [("a", .int 1)] []).requests.map HttpRequest.body = ["\x7b\"a\": 1\x7d"] ∧
    compactJsonDumps (.obj [("a", .int 1)]) = "\x7b\"a\":1\x7d" ∧
    ("\x7b\"a\": 1\x7d" == "\x7b\"a\":1\x7d") = false :=
  ⟨rfl, rfl, by decide⟩

/-- C3 (amended): For every request, public or private, the transmitted HTTP
request body is the `json.dumps` serialization of the body mapping with
Python's default separators (`", "` between items, `": "` after keys) — not
the maximally compact form — and when no payload is given the transmitted
body is exactly the two characters `\x7b\x7d`. -/
theorem C3_transmitted_body (hm : String → String → String)
    (transport : HttpRequest → HttpResponse) (cfg : ClientConfig)
    (ts m p : String) (b : List (String × JsonVal)) (q : List (String × String))
    (hsec : ¬ cfg.api_secret.getD "" = "") :
    (send_public_request transport cfg m p b q).requests.map HttpRequest.body =
      [jsonDumps (.obj b)] ∧
    (send_private_request hm transport cfg ts m p b q).requests.map HttpRequest.body =
      [jsonDumps (.obj b)] ∧
    jsonDumps (.obj []) = "\x7b\x7d" := by
  refine ⟨rfl, ?_, rfl⟩
  rw [send_private_request_ok hm transport cfg ts m p b q hsec]
  rfl

/-- Witness for C3 (amended) at a concrete configured client and body. -/
theorem C3_transmitted_body_witness :
    (send_public_request trOk
      { api_key := some "k", api_secret := some "s", base_url := "https://api.bitkub.com" }
      "POST" "/x" [("a", .int 1)] []).requests.map HttpRequest.body =
      ["\x7b\"a\": 1\x7d"] ∧
    (send_private_request hmDummy trOk
      { api_key := some "k", api_secret := some "s", base_url := "https://api.bitkub.com" }
      "1700000000000" "POST" "/x" [("a", .int 1)] []).requests.map HttpRequest.body =
      ["\x7b\"a\": 1\x7d"] ∧
    jsonDumps (.obj []) = "\x7b\x7d" :=
  C3_transmitted_body hmDummy trOk
    { api_key := some "k", api_secret := some "s", base_url := "https://api.bitkub.com" }
    "1700000000000" "POST" "/x" [("a", .int 1)] [] (by decide)

/-- C4: For every received HTTP response: if the status code is at least 200
and strictly below 300, processing proceeds to JSON parsing (and then the
in-band error check); if the status code is below 200 or at or above 300, the
call fails with `BitkubException` whose message is the status code followed by
the raw response body text, and neither JSON parsing nor the in-band error
check is performed (the outcome is independent of the body). -/
theorem C4_status_classification (r : HttpResponse) :
    (r.status_code < 200 ∨ r.status_code ≥ 300 →
      handle_response r = .error (.bitkub (toString r.status_code ++ " : " ++ r.text))) ∧
    (200 ≤ r.status_code → r.status_code < 300 →
      handle_response r =
        match r.jsonBody with
        | none => .error (.bitkub "Invalid JSON response")
        | some data => checkApiError data) := by
  constructor
  · intro h
    unfold handle_response guard_errors
    rw [if_pos h]
  · intro h1 h2
    unfold handle_response
    rw [guard_errors_ok r h1 h2]

/-- Witness for C4: a 404 response fails with the status in the message and
its (well-formed) JSON body is never consulted; a 200 response is parsed. -/
theorem C4_status_classification_witness :
    handle_response { status_code := 404, text := "not found", jsonBody := some (.obj []) } =
      .error (.bitkub "404 : not found") ∧
    handle_response { status_code := 200, text := "\x7b\x7d", jsonBody := some (.obj []) } =
      .ok (.obj []) := by
  constructor
  · exact (C4_status_classification
      { status_code := 404, text := "not found", jsonBody := some (.obj []) }).1
      (by decide)
  · have h := (C4_status_classification
      { status_code := 200, text := "\x7b\x7d", jsonBody := some (.obj []) }).2
      (by decide) (by decide)
    rw [h]
    rfl

/-- C5: For every response with 2xx status whose body parses to a JSON mapping
containing an `error` field with a non-zero integer value, the call fails with
`BitkubAPIException` carrying that numeric code and the mapping's `message`
field when present, defaulting to the message `API Error <code>` when absent;
when the `error` field's value is `0`, no exception is raised and the parsed
value is returned unchanged. -/
theorem C5_inband_integer_error (r : HttpResponse) (fs : List (String × JsonVal))
    (n : Int) (h1 : 200 ≤ r.status_code) (h2 : r.status_code < 300)
    (hj : r.jsonBody = some (.obj fs)) (he : dictGet "error" fs = some (.int n)) :
    (n ≠ 0 →
      handle_response r =
        .error (.api ((dictGet "message" fs).getD
          (.str ("API Error " ++ toString n))) (.int n))) ∧
    (n = 0 → handle_response r = .ok (.obj fs)) := by
  have hh : handle_response r = checkApiError (.obj fs) := by
    unfold handle_response
    rw [guard_errors_ok r h1 h2, hj]
  rw [hh]
  simp only [checkApiError, he]
  constructor
  · intro hn
    rw [if_pos]
    · rfl
    · simp [pyTruthy, pyNeZero, hn]
  · intro hn
    subst hn
    rw [if_neg]
    decide

/-- Witness for C5: `\x7b"error": 5\x7d` raises the API error with code 5 and
default message `API Error 5`; `\x7b"error": 0, "result": 1\x7d` is returned
unchanged. -/
theorem C5_inband_integer_error_witness :
    handle_response { status_code := 200, text := "", jsonBody := some (.obj [("error", .int 5)]) } =
      .error (.api (.str "API Error 5") (.int 5)) ∧
    handle_response { status_code := 200, text := "", jsonBody := some (.obj [("error", .int 0), ("result", .int 1)]) } =
      .ok (.obj [("error", .int 0), ("result", .int 1)]) := by
  constructor
  · have h := (C5_inband_integer_error
      { status_code := 200, text := "", jsonBody := some (.obj [("error", .int 5)]) }
      [("error", .int 5)] 5 (by decide) (by decide) rfl rfl).1 (by decide)
    rw [h]
    rfl
  · exact (C5_inband_integer_error
      { status_code := 200, text := "", jsonBody := some (.obj [("error", .int 0), ("result", .int 1)]) }
      [("error", .int 0), ("result", .int 1)] 0 (by decide) (by decide) rfl rfl).2 rfl

/-- C6: For every response with 2xx status whose body cannot be parsed as
JSON, the call fails with `BitkubException` whose message is exactly
`Invalid JSON response`. -/
theorem C6_invalid_json (r : HttpResponse) (h1 : 200 ≤ r.status_code)
    (h2 : r.status_code < 300) (hj : r.jsonBody = none) :
    handle_response r = .error (.bitkub "Invalid JSON response") := by
  unfold handle_response
  rw [guard_errors_ok r h1 h2, hj]

/-- Witness for C6 at a concrete 200 response with a non-JSON body. -/
theorem C6_invalid_json_witness :
    handle_response { status_code := 200, text := "<html>", jsonBody := none } =
      .error (.bitkub "Invalid JSON response") :=
  C6_invalid_json { status_code := 200, text := "<html>", jsonBody := none }
    (by decide) (by decide) rfl

/-- C7: For every private request (with the secret configured, so that a
request is actually sent), the bytes that are signed are the bytes that are
transmitted: the timestamp in the signed payload is string-identical to the
`X-BTK-TIMESTAMP` header value, the path-with-query in the signed payload is
string-identical to the path portion of the requested URL (the URL is the
base URL followed by that exact string), and the JSON body string in the
signed payload is string-identical to the transmitted request body. -/
theorem C7_signed_bytes_are_transmitted_bytes (hm : String → String → String)
    (transport : HttpRequest → HttpResponse) (cfg : ClientConfig)
    (ts m p : String) (b : List (String × JsonVal)) (q : List (String × String))
    (hsec : ¬ cfg.api_secret.getD "" = "") :
    ∃ req, (send_private_request hm transport cfg ts m p b q).requests = [req] ∧
      lookupHeader "X-BTK-TIMESTAMP" req.headers = some ts ∧
      req.url = cfg.base_url ++ pathWithQuery p q ∧
      req.body = jsonDumps (.obj b) ∧
      (send_private_request hm transport cfg ts m p b q).signedPayloads =
        [ts ++ (m ++ (pathWithQuery p q ++ req.body))] := by
  rw [send_private_request_ok hm transport cfg ts m p b q hsec]
  exact ⟨privateRequestOf hm cfg ts m p b q, rfl, rfl, rfl, rfl, by rw [strJoin_four]; rfl⟩

/-- Witness for C7 at a concrete configured client and request. -/
theorem C7_signed_bytes_are_transmitted_bytes_witness :
    ∃ req, (send_private_request hmDummy trOk
        { api_key := some "k", api_secret := some "s", base_url := "https://api.bitkub.com" }
        "1700000000000" "GET" "/api/v3/market/my-open-orders" [] [("sym", "THB_BTC")]).requests = [req] ∧
      lookupHeader "X-BTK-TIMESTAMP" req.headers = some "1700000000000" ∧
      req.url = "https://api.bitkub.com" ++ pathWithQuery "/api/v3/market/my-open-orders" [("sym", "THB_BTC")] ∧
      req.body = jsonDumps (.obj []) ∧
      (send_private_request hmDummy trOk
        { api_key := some "k", api_secret := some "s", base_url := "https://api.bitkub.com" }
        "1700000000000" "GET" "/api/v3/market/my-open-orders" [] [("sym", "THB_BTC")]).signedPayloads =
        ["1700000000000" ++ ("GET" ++ (pathWithQuery "/api/v3/market/my-open-orders" [("sym", "THB_BTC")] ++ req.body))] :=
  C7_signed_bytes_are_transmitted_bytes hmDummy trOk
    { api_key := some "k", api_secret := some "s", base_url := "https://api.bitkub.com" }
    "1700000000000" "GET" "/api/v3/market/my-open-orders" [] [("sym", "THB_BTC")] (by decide)

/-- C8: For every private call (with the secret configured) the outgoing
header set is exactly `Accept`, `Content-Type`, `X-BTK-TIMESTAMP`,
`X-BTK-SIGN`, `X-BTK-APIKEY`, with `Accept` and `Content-Type` both
`application/json`; for every public call it is exactly `Accept` and
`Content-Type` (both `application/json`), so no `X-BTK-*` authentication
header is ever sent on a public call; and when the API key is empty or unset,
`X-BTK-APIKEY` is still present with the empty string as its value. -/
theorem C8_header_sets (hm : String → String → String)
    (transport : HttpRequest → HttpResponse) (cfg : ClientConfig)
    (ts m p : String) (b : List (String × JsonVal)) (q : List (String × String))
    (hsec : ¬ cfg.api_secret.getD "" = "") :
    ((send_private_request hm transport cfg ts m p b q).requests.map HttpRequest.headers =
      [[("Accept", "application/json"), ("Content-Type", "application/json"),
        ("X-BTK-TIMESTAMP", ts),
        ("X-BTK-SIGN", hm (cfg.api_secret.getD "")
          (strJoin [ts, m, pathWithQuery p q, jsonDumps (.obj b)])),
        ("X-BTK-APIKEY", cfg.api_key.getD "")]]) ∧
    ((send_public_request transport cfg m p b q).requests.map HttpRequest.headers =
      [[("Accept", "application/json"), ("Content-Type", "application/json")]]) ∧
    (∀ k v, lookupHeader k public_headers = some v →
      (k = "Accept" ∨ k = "Content-Type") ∧ v = "application/json") ∧
    (cfg.api_key = none ∨ cfg.api_key = some "" →
      (send_private_request hm transport cfg ts m p b q).requests.map
        (fun r => lookupHeader "X-BTK-APIKEY" r.headers) = [some ""]) := by
  refine ⟨?_, rfl, ?_, ?_⟩
  · rw [send_private_request_ok hm transport cfg ts m p b q hsec]
    rfl
  · intro k v h
    simp only [public_headers, lookupHeader] at h
    split_ifs at h with hA hC
    · exact ⟨Or.inl hA, (Option.some.inj h).symm⟩
    · exact ⟨Or.inr hC, (Option.some.inj h).symm⟩
  · intro hk
    have hkey : cfg.api_key.getD "" = "" := by
      rcases hk with h | h <;> simp [h]
    rw [send_private_request_ok hm transport cfg ts m p b q hsec]
    show [some (cfg.api_key.getD "")] = [some ""]
    rw [hkey]

/-- Witness for C8 at a concrete client whose API key is the empty string. -/
theorem C8_header_sets_witness :
    ((send_private_request hmDummy trOk
        { api_key := some "", api_secret := some "s", base_url := "https://api.bitkub.com" }
        "1700000000000" "POST" "/api/v3/market/wallet" [] []).requests.map HttpRequest.headers =
      [[("Accept", "application/json"), ("Content-Type", "application/json"),
        ("X-BTK-TIMESTAMP", "1700000000000"), ("X-BTK-SIGN", "0"), ("X-BTK-APIKEY", "")]]) ∧
    ((send_public_request trOk
        { api_key := some "", api_secret := some "s", base_url := "https://api.bitkub.com" }
        "POST" "/api/v3/market/wallet" [] []).requests.map HttpRequest.headers =
      [[("Accept", "application/json"), ("Content-Type", "application/json")]]) ∧
    ((send_private_request hmDummy trOk
        { api_key := some "", api_secret := some "s", base_url := "https://api.bitkub.com" }
        "1700000000000" "POST" "/api/v3/market/wallet" [] []).requests.map
        (fun r => lookupHeader "X-BTK-APIKEY" r.headers) = [some ""]) := by
  have h := C8_header_sets hmDummy trOk
    { api_key := some "", api_secret := some "s", base_url := "https://api.bitkub.com" }
    "1700000000000" "POST" "/api/v3/market/wallet" [] [] (by decide)
  exact ⟨h.1, h.2.1, h.2.2.2 (Or.inr rfl)⟩

/-- C9: In-band error detection triggers on Python truthiness: for every 2xx
response whose body parses to a mapping with an `error` field, an API error is
raised exactly when that field's value is truthy — so a non-integer value such
as the non-empty string `"5"` also raises `BitkubAPIException` — while any
falsy value (`0`, `None`, `False`, the empty string, or an empty container)
causes the parsed mapping to be returned to the caller unchanged. -/
theorem C9_truthiness_detection (r : HttpResponse) (fs : List (String × JsonVal))
    (v : JsonVal) (h1 : 200 ≤ r.status_code) (h2 : r.status_code < 300)
    (hj : r.jsonBody = some (.obj fs)) (he : dictGet "error" fs = some v) :
    (pyTruthy v = true →
      handle_response r =
        .error (.api ((dictGet "message" fs).getD
          (.str ("API Error " ++ pyStr v))) v)) ∧
    (pyTruthy v = false → handle_response r = .ok (.obj fs)) := by
  have hh : handle_response r = checkApiError (.obj fs) := by
    unfold handle_response
    rw [guard_errors_ok r h1 h2, hj]
  rw [hh]
  simp only [checkApiError, he]
  constructor
  · intro ht
    rw [if_pos]
    rw [ht, pyTruthy_imp_pyNeZero v ht]
    rfl
  · intro hf
    rw [if_neg]
    rw [hf]
    simp

/-- Witness for C9: the string value `"5"` is truthy, so it raises the API
error (with code `"5"` and default message `API Error 5`); the falsy value
`null` does not, and the mapping comes back unchanged. -/
theorem C9_truthiness_detection_witness :
    handle_response { status_code := 200, text := "", jsonBody := some (.obj [("error", .str "5")]) } =
      .error (.api (.str "API Error 5") (.str "5")) ∧
    handle_response { status_code := 200, text := "", jsonBody := some (.obj [("error", .null)]) } =
      .ok (.obj [("error", .null)]) := by
  constructor
  · have h := (C9_truthiness_detection
      { status_code := 200, text := "", jsonBody := some (.obj [("error", .str "5")]) }
      [("error", .str "5")] (.str "5") (by decide) (by decide) rfl rfl).1 (by decide)
    rw [h]
    rfl
  · exact (C9_truthiness_detection
      { status_code := 200, text := "", jsonBody := some (.obj [("error", .null)]) }
      [("error", .null)] .null (by decide) (by decide) rfl rfl).2 rfl

/-- C10: The missing-secret failure (`API secret not set`), the non-2xx-status
failure, and the invalid-JSON failure are all raised as the same exception
type (`BitkubException`, the `bitkub` constructor) and are distinguishable
only by their message text; only in-band API errors are given the distinct
type `BitkubAPIException` (the `api` constructor), carrying the numeric code. -/
theorem C10_error_taxonomy (hm : String → String → String) (sec : Option String)
    (payload : String) (r1 r2 r3 : HttpResponse)
    (fs : List (String × JsonVal)) (n : Int) :
    (sec = none ∨ sec = some "" →
      sign hm sec payload = .error (.bitkub "API secret not set")) ∧
    (r1.status_code < 200 ∨ r1.status_code ≥ 300 →
      handle_response r1 = .error (.bitkub (toString r1.status_code ++ " : " ++ r1.text))) ∧
    (200 ≤ r2.status_code → r2.status_code < 300 → r2.jsonBody = none →
      handle_response r2 = .error (.bitkub "Invalid JSON response")) ∧
    (200 ≤ r3.status_code → r3.status_code < 300 → r3.jsonBody = some (.obj fs) →
      dictGet "error" fs = some (.int n) → n ≠ 0 →
      handle_response r3 =
        .error (.api ((dictGet "message" fs).getD
          (.str ("API Error " ++ toString n))) (.int n))) := by
  refine ⟨?_, ?_, ?_, ?_⟩
  · intro h
    have hsec : sec.getD "" = "" := by
      rcases h with h | h <;> simp [h]
    unfold sign
    rw [if_pos hsec]
  · intro h
    unfold handle_response guard_errors
    rw [if_pos h]
  · intro h1 h2 hj
    unfold handle_response
    rw [guard_errors_ok r2 h1 h2, hj]
  · intro h1 h2 hj he hn
    have hh : handle_response r3 = checkApiError (.obj fs) := by
      unfold handle_response
      rw [guard_errors_ok r3 h1 h2, hj]
    rw [hh]
    simp only [checkApiError, he]
    rw [if_pos]
    · rfl
    · simp [pyTruthy, pyNeZero, hn]

/-- Witness for C10: the three `BitkubException` failures and the
`BitkubAPIException` failure at concrete inputs. -/
theorem C10_error_taxonomy_witness :
    sign hmDummy (some "") "x" = .error (.bitkub "API secret not set") ∧
    handle_response { status_code := 500, text := "boom", jsonBody := none } =
      .error (.bitkub "500 : boom") ∧
    handle_response { status_code := 200, text := "<html>", jsonBody := none } =
      .error (.bitkub "Invalid JSON response") ∧
    handle_response { status_code := 200, text := "", jsonBody := some (.obj [("error", .int 7)]) } =
      .error (.api (.str "API Error 7") (.int 7)) := by
  have h := C10_error_taxonomy hmDummy (some "") "x"
    { status_code := 500, text := "boom", jsonBody := none }
    { status_code := 200, text := "<html>", jsonBody := none }
    { status_code := 200, text := "", jsonBody := some (.obj [("error", .int 7)]) }
    [("error", .int 7)] 7
  refine ⟨h.1 (Or.inr rfl), h.2.1 (by decide), h.2.2.1 (by decide) (by decide) rfl, ?_⟩
  have h4 := h.2.2.2 (by decide) (by decide) rfl rfl (by decide)
  rw [h4]
  rfl

end Bitkub
